import Mathlib

/-!
Shallow embedding of the `gocbr` circuit breaker (src/breaker.go).

Modelling conventions:
* `time.Time` is modelled as a `Nat` of abstract time units; the Go zero
  time (`time.Time{}`, for which `IsZero` is true) is `0`, and
  `t.Before(u)` is `t < u`.
* `time.Duration` configuration inputs are modelled as `Int` (they can be
  negative before normalisation); the normalised fields stored in the
  breaker are `Nat`.  The 60-second default timeout is 60 abstract units.
* `uint32` counters wrap modulo `2^32` and the `uint64` generation wraps
  modulo `2^64`, as Go's unsigned arithmetic does.
* The mutex only serialises operations; sequential semantics is the
  faithful embedding of each serialised critical section.  The unlocked
  read of `cb.generation` performed by the public `OnSuccess`/`OnFailure`
  hooks is embedded exactly as written: the generation passed to
  `afterRequest` is the breaker's generation at report time.
* The `onStateChange` observer is modelled by having every operation
  return the list of `(from, to)` invocations it performs (the Go code
  invokes the callback, when registered, exactly once per element of that
  list, synchronously and in order).
-/

namespace Gocbr

/-- Wrap-around modulus of Go's `uint32`. -/
def u32Mod : Nat := 2 ^ 32

/-- Wrap-around modulus of Go's `uint64`. -/
def u64Mod : Nat := 2 ^ 64

/-- `State` from breaker.go: the three circuit-breaker states,
`StateClosed = 0`, `StateHalfOpen = 1`, `StateOpen = 2`. -/
inductive State where
  | StateClosed
  | StateHalfOpen
  | StateOpen
deriving DecidableEq, Repr

export State (StateClosed StateHalfOpen StateOpen)

/-- The two sentinel admission errors, `ErrTooManyRequests` and
`ErrOpenState` from breaker.go. -/
inductive Err where
  | ErrTooManyRequests
  | ErrOpenState
deriving DecidableEq, Repr

/-- An observer invocation `(from, to)` of the `onStateChange` callback. -/
def Event : Type := State × State

instance : DecidableEq Event := instDecidableEqProd

/-- `Counts` from breaker.go: request and outcome statistics of the
current generation (all fields are Go `uint32`). -/
structure Counts where
  Requests : Nat
  TotalSuccesses : Nat
  TotalFailures : Nat
  ConsecutiveSuccesses : Nat
  ConsecutiveFailures : Nat
deriving DecidableEq, Repr

/-- `Counts.onRequest`: `c.Requests++`. -/
def Counts.onRequest (c : Counts) : Counts :=
  { c with Requests := (c.Requests + 1) % u32Mod }

/-- `Counts.onSuccess`: bump the total and consecutive success counters
and zero the consecutive-failure streak. -/
def Counts.onSuccess (c : Counts) : Counts :=
  { c with
      TotalSuccesses := (c.TotalSuccesses + 1) % u32Mod
      ConsecutiveSuccesses := (c.ConsecutiveSuccesses + 1) % u32Mod
      ConsecutiveFailures := 0 }

/-- `Counts.onFailure`: bump the total and consecutive failure counters
and zero the consecutive-success streak. -/
def Counts.onFailure (c : Counts) : Counts :=
  { c with
      TotalFailures := (c.TotalFailures + 1) % u32Mod
      ConsecutiveFailures := (c.ConsecutiveFailures + 1) % u32Mod
      ConsecutiveSuccesses := 0 }

/-- `Counts.clear`: zero every field. -/
def Counts.clear (_c : Counts) : Counts :=
  { Requests := 0
    TotalSuccesses := 0
    TotalFailures := 0
    ConsecutiveSuccesses := 0
    ConsecutiveFailures := 0 }

/-- `defaultReadyToTrip`: trip when `ConsecutiveFailures > 5`
(`defaultMaxConsecutiveFailures`). -/
def defaultReadyToTrip (counts : Counts) : Bool :=
  decide (counts.ConsecutiveFailures > 5)

/-- `Config` from breaker.go.  `ReadyToTrip = none` models a nil Go
function value; the `OnStateChange` callback is not a field here because
observer invocations are returned as event lists by each operation. -/
structure Config where
  Name : String
  MaxRequests : Nat
  Interval : Int
  Timeout : Int
  ReadyToTrip : Option (Counts → Bool)

/-- `CircuitBreaker` from breaker.go (post-construction fields; the
mutex is represented by the sequential semantics of the operations). -/
structure CircuitBreaker where
  name : String
  maxRequests : Nat
  interval : Nat
  timeout : Nat
  readyToTrip : Counts → Bool
  state : State
  generation : Nat
  counts : Counts
  expiry : Nat

/-- `reset`: bump the generation, clear the counts and recompute the
expiry from the (already set) current state. -/
def CircuitBreaker.reset (cb : CircuitBreaker) (now : Nat) : CircuitBreaker :=
  let cb := { cb with
                generation := (cb.generation + 1) % u64Mod
                counts := cb.counts.clear }
  match cb.state with
  | StateClosed =>
      if cb.interval = 0 then { cb with expiry := 0 }
      else { cb with expiry := now + cb.interval }
  | StateOpen => { cb with expiry := now + cb.timeout }
  | StateHalfOpen => { cb with expiry := 0 }

/-- `setState`: no-op when the target equals the current state; otherwise
record the previous state, switch, reset, and fire the observer once with
`(prev, state)`. -/
def CircuitBreaker.setState (cb : CircuitBreaker) (state : State) (now : Nat) :
    CircuitBreaker × List Event :=
  if cb.state = state then (cb, [])
  else
    let prev := cb.state
    let cb := { cb with state := state }
    let cb := cb.reset now
    (cb, [(prev, state)])

/-- `currentState`: resolve lazy time-based transitions (Closed-state
window rollover, Open → HalfOpen on timeout) and return the updated
breaker; Go additionally returns `cb.state, cb.generation` read from the
updated receiver. -/
def CircuitBreaker.currentState (cb : CircuitBreaker) (now : Nat) :
    CircuitBreaker × List Event :=
  match cb.state with
  | StateClosed =>
      if cb.expiry ≠ 0 ∧ cb.expiry < now then (cb.reset now, []) else (cb, [])
  | StateOpen =>
      if cb.expiry < now then cb.setState StateHalfOpen now else (cb, [])
  | StateHalfOpen => (cb, [])

/-- `beforeRequest`: resolve state, reject with `ErrOpenState` while
Open, reject with `ErrTooManyRequests` while HalfOpen at or over the
probe budget, otherwise record the request; returns the resolved
generation alongside the error, as the Go function does. -/
def CircuitBreaker.beforeRequest (cb : CircuitBreaker) (now : Nat) :
    CircuitBreaker × Nat × Option Err × List Event :=
  let r := cb.currentState now
  let cb1 := r.1
  if cb1.state = StateOpen then
    (cb1, cb1.generation, some Err.ErrOpenState, r.2)
  else if cb1.state = StateHalfOpen ∧ cb1.maxRequests ≤ cb1.counts.Requests then
    (cb1, cb1.generation, some Err.ErrTooManyRequests, r.2)
  else
    ({ cb1 with counts := cb1.counts.onRequest }, cb1.generation, none, r.2)

/-- `CircuitBreaker.onSuccess` (the method on the breaker, distinct from
`Counts.onSuccess`): apply a success outcome against the resolved state. -/
def CircuitBreaker.onSuccess (cb : CircuitBreaker) (state : State) (now : Nat) :
    CircuitBreaker × List Event :=
  match state with
  | StateClosed => ({ cb with counts := cb.counts.onSuccess }, [])
  | StateHalfOpen =>
      let cb := { cb with counts := cb.counts.onSuccess }
      if cb.maxRequests ≤ cb.counts.ConsecutiveSuccesses then
        cb.setState StateClosed now
      else (cb, [])
  | StateOpen => (cb, [])

/-- `CircuitBreaker.onFailure`: apply a failure outcome against the
resolved state. -/
def CircuitBreaker.onFailure (cb : CircuitBreaker) (state : State) (now : Nat) :
    CircuitBreaker × List Event :=
  match state with
  | StateClosed =>
      let cb := { cb with counts := cb.counts.onFailure }
      if cb.readyToTrip cb.counts then cb.setState StateOpen now
      else (cb, [])
  | StateHalfOpen => cb.setState StateOpen now
  | StateOpen => (cb, [])

/-- `afterRequest`: resolve state, discard the report when the resolved
generation differs from `before`, otherwise dispatch on the outcome. -/
def CircuitBreaker.afterRequest (cb : CircuitBreaker) (before : Nat)
    (success : Bool) (now : Nat) : CircuitBreaker × List Event :=
  let r := cb.currentState now
  let cb1 := r.1
  if cb1.generation ≠ before then (cb1, r.2)
  else if success then
    let s := cb1.onSuccess cb1.state now
    (s.1, r.2 ++ s.2)
  else
    let f := cb1.onFailure cb1.state now
    (f.1, r.2 ++ f.2)

/-- `NewCircuitBreaker`: normalise the configuration (`MaxRequests 0 → 1`,
`Interval ≤ 0 → 0`, `Timeout ≤ 0 → 60`, nil `ReadyToTrip` → default) and
perform the initial reset at `now` (Go calls `time.Now()`). -/
def NewCircuitBreaker (st : Config) (now : Nat) : CircuitBreaker :=
  let cb : CircuitBreaker :=
    { name := st.Name
      maxRequests := if st.MaxRequests = 0 then 1 else st.MaxRequests
      interval := if st.Interval ≤ 0 then 0 else st.Interval.toNat
      timeout := if st.Timeout ≤ 0 then 60 else st.Timeout.toNat
      readyToTrip := st.ReadyToTrip.getD defaultReadyToTrip
      state := StateClosed
      generation := 0
      counts := { Requests := 0, TotalSuccesses := 0, TotalFailures := 0,
                  ConsecutiveSuccesses := 0, ConsecutiveFailures := 0 }
      expiry := 0 }
  cb.reset now

/-- Public `BeforeRequest` hook: the admission check; note that it drops
the generation returned by the internal `beforeRequest`. -/
def CircuitBreaker.BeforeRequest (cb : CircuitBreaker) (now : Nat) :
    CircuitBreaker × Option Err × List Event :=
  let r := cb.beforeRequest now
  (r.1, r.2.2.1, r.2.2.2)

/-- Public `OnSuccess` hook: `cb.afterRequest(cb.generation, true)` — the
generation argument is the breaker's generation at report time. -/
def CircuitBreaker.OnSuccess (cb : CircuitBreaker) (now : Nat) :
    CircuitBreaker × List Event :=
  cb.afterRequest cb.generation true now

/-- Public `OnFailure` hook: `cb.afterRequest(cb.generation, false)`. -/
def CircuitBreaker.OnFailure (cb : CircuitBreaker) (now : Nat) :
    CircuitBreaker × List Event :=
  cb.afterRequest cb.generation false now

/-- Public `State` accessor: resolves lazy transitions at `now` and
returns the resulting state. -/
def CircuitBreaker.State (cb : CircuitBreaker) (now : Nat) :
    CircuitBreaker × Gocbr.State × List Event :=
  let r := cb.currentState now
  (r.1, r.1.state, r.2)

end Gocbr

namespace Gocbr

/-- A serialised public operation on the breaker, each carrying the
`time.Now()` value observed inside its critical section. -/
inductive Op where
  | beforeReq (now : Nat)
  | reportSuccess (now : Nat)
  | reportFailure (now : Nat)
  | readState (now : Nat)

/-- Apply one public operation, keeping the breaker component. -/
def CircuitBreaker.step (cb : CircuitBreaker) : Op → CircuitBreaker
  | .beforeReq now => (cb.BeforeRequest now).1
  | .reportSuccess now => (cb.OnSuccess now).1
  | .reportFailure now => (cb.OnFailure now).1
  | .readState now => (cb.State now).1

/-- Apply a sequence of public operations in order. -/
def CircuitBreaker.run (cb : CircuitBreaker) : List Op → CircuitBreaker
  | [] => cb
  | op :: ops => (cb.step op).run ops

/-- The streak invariant: the consecutive-success and
consecutive-failure counters are never both nonzero. -/
def Counts.streakOk (c : Counts) : Prop :=
  c.ConsecutiveSuccesses = 0 ∨ c.ConsecutiveFailures = 0

/-- The all-zero `Counts` value (the result of `Counts.clear`). -/
def zeroCounts : Counts :=
  { Requests := 0, TotalSuccesses := 0, TotalFailures := 0,
    ConsecutiveSuccesses := 0, ConsecutiveFailures := 0 }

/-!
A concrete execution exhibiting the generation-stamping slip of the
public hooks.  The configuration has a 5-unit closed-state interval.
At time 0 a request is admitted under generation 1; at time 6 a state
read rolls the statistics window over (generation 2, counts cleared);
at time 7 the outcome of the time-0 request is reported.  Because
`OnSuccess` passes `cb.generation` — the breaker's generation at report
time — rather than the generation captured by `beforeRequest`, the
stale report passes the generation check and lands in generation 2's
counters.
-/

/-- Configuration of the stale-report execution: `Interval = 5`. -/
def staleCfg : Config :=
  { Name := "cb", MaxRequests := 1, Interval := 5, Timeout := 60, ReadyToTrip := none }

/-- Fresh breaker built at time 0: Closed, generation 1, expiry 5. -/
def staleCb0 : CircuitBreaker := NewCircuitBreaker staleCfg 0

/-- Admission at time 0 (succeeds; the resolved generation is 1). -/
def staleAdmit : CircuitBreaker × Nat × Option Err × List Event :=
  staleCb0.beforeRequest 0

/-- Breaker after the admission: `Requests = 1`, generation 1. -/
def staleCb1 : CircuitBreaker := staleAdmit.1

/-- State read at time 6, past the 5-unit window: rollover to
generation 2, counts cleared. -/
def staleRead : CircuitBreaker × State × List Event := staleCb1.State 6

/-- Breaker after the rollover: Closed, generation 2, counts all zero. -/
def staleCb2 : CircuitBreaker := staleRead.1

/-- The report, at time 7, of the outcome of the request admitted at
time 0 under generation 1. -/
def staleReport : CircuitBreaker × List Event := staleCb2.OnSuccess 7

/-- Breaker after the stale report. -/
def staleCb3 : CircuitBreaker := staleReport.1

/-- Witness breaker in the Open state: entered Open at time 0 with
`timeout = 10`, so `expiry = 10`; generation 5. -/
def cbOpenW : CircuitBreaker :=
  { name := "w", maxRequests := 1, interval := 0, timeout := 10,
    readyToTrip := defaultReadyToTrip, state := StateOpen, generation := 5,
    counts := zeroCounts, expiry := 10 }

/-- Witness breaker in HalfOpen with its probe budget of 2 exhausted
(`Requests = 2`) and one consecutive success recorded. -/
def cbHalfW : CircuitBreaker :=
  { name := "w", maxRequests := 2, interval := 0, timeout := 10,
    readyToTrip := defaultReadyToTrip, state := StateHalfOpen, generation := 7,
    counts := { Requests := 2, TotalSuccesses := 1, TotalFailures := 0,
                ConsecutiveSuccesses := 1, ConsecutiveFailures := 0 },
    expiry := 0 }

/-- Witness breaker in HalfOpen with budget remaining (`Requests = 1`
of 2). -/
def cbProbeW : CircuitBreaker :=
  { name := "w", maxRequests := 2, interval := 0, timeout := 10,
    readyToTrip := defaultReadyToTrip, state := StateHalfOpen, generation := 7,
    counts := { Requests := 1, TotalSuccesses := 1, TotalFailures := 0,
                ConsecutiveSuccesses := 1, ConsecutiveFailures := 0 },
    expiry := 0 }

/-- Witness breaker in Closed one failure away from the default trip
threshold (`ConsecutiveFailures = 5`). -/
def cbClosedTripW : CircuitBreaker :=
  { name := "w", maxRequests := 1, interval := 0, timeout := 10,
    readyToTrip := defaultReadyToTrip, state := StateClosed, generation := 3,
    counts := { Requests := 6, TotalSuccesses := 0, TotalFailures := 5,
                ConsecutiveSuccesses := 0, ConsecutiveFailures := 5 },
    expiry := 0 }

/-- Witness breaker in Closed with a 5-unit interval whose window
expiry (5) has been reached. -/
def cbClosedIntW : CircuitBreaker :=
  { name := "w", maxRequests := 1, interval := 5, timeout := 10,
    readyToTrip := defaultReadyToTrip, state := StateClosed, generation := 9,
    counts := { Requests := 2, TotalSuccesses := 1, TotalFailures := 1,
                ConsecutiveSuccesses := 0, ConsecutiveFailures := 1 },
    expiry := 5 }

end Gocbr

namespace Gocbr

/-! Helper lemmas. -/

/-- `reset` does not touch the configured probe budget. -/
theorem reset_maxRequests (cb : CircuitBreaker) (now : Nat) :
    (cb.reset now).maxRequests = cb.maxRequests := by
  unfold CircuitBreaker.reset
  dsimp only
  split <;> first
    | (split <;> rfl)
    | rfl

/-- Construction normalises `MaxRequests = 0` to 1, so the probe budget
is always at least 1. -/
theorem newCircuitBreaker_maxRequests_pos (st : Config) (now : Nat) :
    1 ≤ (NewCircuitBreaker st now).maxRequests := by
  unfold NewCircuitBreaker
  dsimp only
  rw [reset_maxRequests]
  dsimp only
  split <;> omega

theorem streakOk_onRequest {c : Counts} (h : c.streakOk) : c.onRequest.streakOk := h

theorem streakOk_onSuccess (c : Counts) : c.onSuccess.streakOk := Or.inr rfl

theorem streakOk_onFailure (c : Counts) : c.onFailure.streakOk := Or.inl rfl

theorem streakOk_reset (cb : CircuitBreaker) (now : Nat) :
    (cb.reset now).counts.streakOk := by
  unfold CircuitBreaker.reset
  dsimp only
  split <;> first
    | (split <;> exact Or.inl rfl)
    | exact Or.inl rfl

theorem streakOk_setState {cb : CircuitBreaker} (s : State) (now : Nat)
    (h : cb.counts.streakOk) : (cb.setState s now).1.counts.streakOk := by
  unfold CircuitBreaker.setState
  split
  · exact h
  · exact streakOk_reset _ now

theorem streakOk_currentState {cb : CircuitBreaker} (now : Nat)
    (h : cb.counts.streakOk) : (cb.currentState now).1.counts.streakOk := by
  unfold CircuitBreaker.currentState
  split
  · split
    · exact streakOk_reset _ now
    · exact h
  · split
    · exact streakOk_setState _ now h
    · exact h
  · exact h

theorem streakOk_cb_onSuccess {cb : CircuitBreaker} (s : State) (now : Nat)
    (h : cb.counts.streakOk) : (cb.onSuccess s now).1.counts.streakOk := by
  unfold CircuitBreaker.onSuccess
  dsimp only
  split
  · exact streakOk_onSuccess _
  · split
    · exact streakOk_setState _ now (streakOk_onSuccess _)
    · exact streakOk_onSuccess _
  · exact h

theorem streakOk_cb_onFailure {cb : CircuitBreaker} (s : State) (now : Nat)
    (h : cb.counts.streakOk) : (cb.onFailure s now).1.counts.streakOk := by
  unfold CircuitBreaker.onFailure
  dsimp only
  split
  · split
    · exact streakOk_setState _ now (streakOk_onFailure _)
    · exact streakOk_onFailure _
  · exact streakOk_setState _ now h
  · exact h

theorem streakOk_beforeRequest {cb : CircuitBreaker} (now : Nat)
    (h : cb.counts.streakOk) : (cb.beforeRequest now).1.counts.streakOk := by
  unfold CircuitBreaker.beforeRequest
  have h1 := streakOk_currentState now h
  dsimp only
  split
  · exact h1
  · split
    · exact h1
    · exact streakOk_onRequest h1

theorem streakOk_afterRequest {cb : CircuitBreaker} (before : Nat) (success : Bool)
    (now : Nat) (h : cb.counts.streakOk) :
    (cb.afterRequest before success now).1.counts.streakOk := by
  unfold CircuitBreaker.afterRequest
  have h1 := streakOk_currentState now h
  dsimp only
  split
  · exact h1
  · split
    · exact streakOk_cb_onSuccess _ now h1
    · exact streakOk_cb_onFailure _ now h1

theorem streakOk_step {cb : CircuitBreaker} (op : Op) (h : cb.counts.streakOk) :
    (cb.step op).counts.streakOk := by
  cases op with
  | beforeReq now => exact streakOk_beforeRequest now h
  | reportSuccess now => exact streakOk_afterRequest _ true now h
  | reportFailure now => exact streakOk_afterRequest _ false now h
  | readState now => exact streakOk_currentState now h

theorem streakOk_run {cb : CircuitBreaker} (ops : List Op) (h : cb.counts.streakOk) :
    (cb.run ops).counts.streakOk := by
  induction ops generalizing cb with
  | nil => exact h
  | cons op ops ih => exact ih (streakOk_step op h)

/-! Claim theorems. -/

/-- Claim C1 (code bug evidence): the request admitted at time 0 under
generation 1 has its success report applied to generation 2's counters.
`OnSuccess` stamps the report with `cb.generation` read at report time,
not with the generation captured by the matching `beforeRequest`, so a
report whose admission generation is stale still passes the generation
check and mutates the new epoch's counts: after the window rollover the
counts are all zero, yet the stale report makes `TotalSuccesses = 1`
(with `Requests = 0`). -/
theorem staleReportAppliedToNewGeneration :
    staleAdmit.2.2.1 = none ∧
    staleAdmit.2.1 = 1 ∧
    staleCb2.generation = 2 ∧
    staleCb2.counts = zeroCounts ∧
    staleCb3.counts.TotalSuccesses = 1 := by decide

/-- Claim C2 (code bug evidence): a sequence respecting the required
call discipline — one admitted request, exactly one outcome reported for
it, plus a state read — ends with `TotalSuccesses + TotalFailures = 1`
but `Requests = 0`, violating the invariant
`TotalSuccesses + TotalFailures ≤ Requests`.  The violation is caused by
the stale-generation report being applied after the window rollover. -/
theorem totalsExceedRequestsAfterStaleReport :
    staleAdmit.2.2.1 = none ∧
    ¬ (staleCb3.counts.TotalSuccesses + staleCb3.counts.TotalFailures ≤
        staleCb3.counts.Requests) := by decide

/-- Claim C3: while Open with `expiry = t0 + timeout`, every admission
check at `now ≤ t0 + timeout` fails with `ErrOpenState` and leaves the
breaker untouched (no request recorded); the first check strictly after
the expiry instant transitions to HalfOpen, fires the observer with
`(Open, HalfOpen)`, and (budget permitting) admits the request. -/
theorem beforeRequest_open_until_timeout (cb : CircuitBreaker) (t0 now : Nat)
    (hs : cb.state = StateOpen) (he : cb.expiry = t0 + cb.timeout) :
    (now ≤ t0 + cb.timeout →
      cb.beforeRequest now = (cb, cb.generation, some Err.ErrOpenState, [])) ∧
    (t0 + cb.timeout < now → 1 ≤ cb.maxRequests →
      (cb.beforeRequest now).1.state = StateHalfOpen ∧
      (cb.beforeRequest now).2.2.1 = none ∧
      (cb.beforeRequest now).1.counts.Requests = 1 ∧
      (cb.beforeRequest now).2.2.2 = [(StateOpen, StateHalfOpen)]) := by
  constructor
  · intro h
    simp [CircuitBreaker.beforeRequest, CircuitBreaker.currentState, hs, he, Nat.not_lt.2 h]
  · intro h hm
    have hmax : ¬ (cb.maxRequests ≤ 0) := by omega
    simp [CircuitBreaker.beforeRequest, CircuitBreaker.currentState, hs, he, h,
      CircuitBreaker.setState, CircuitBreaker.reset, Counts.clear, Counts.onRequest,
      hmax, u32Mod]

/-- Witness for C3: for the concrete Open breaker `cbOpenW`
(`expiry = 10`), the check at time 3 is rejected with `ErrOpenState`
and the check at time 11 transitions to HalfOpen and is admitted. -/
theorem beforeRequest_open_until_timeout_witness :
    (cbOpenW.beforeRequest 3 = (cbOpenW, cbOpenW.generation, some Err.ErrOpenState, [])) ∧
    ((cbOpenW.beforeRequest 11).1.state = StateHalfOpen ∧
      (cbOpenW.beforeRequest 11).2.2.1 = none ∧
      (cbOpenW.beforeRequest 11).1.counts.Requests = 1 ∧
      (cbOpenW.beforeRequest 11).2.2.2 = [(StateOpen, StateHalfOpen)]) :=
  ⟨(beforeRequest_open_until_timeout cbOpenW 0 3 rfl (by decide)).1 (by decide),
    (beforeRequest_open_until_timeout cbOpenW 0 11 rfl (by decide)).2 (by decide) (by decide)⟩

/-- Claim C4: while HalfOpen, an admission check with
`Requests ≥ maxRequests` fails with `ErrTooManyRequests` and leaves the
breaker unchanged (so `Requests` is not incremented and the budget keeps
rejecting until a transition out of HalfOpen); a check under the budget
is admitted and increments `Requests` — hence at most `maxRequests`
admissions succeed within one HalfOpen generation. -/
theorem beforeRequest_halfOpen_budget (cb : CircuitBreaker) (now : Nat)
    (hs : cb.state = StateHalfOpen) :
    (cb.maxRequests ≤ cb.counts.Requests →
      cb.beforeRequest now = (cb, cb.generation, some Err.ErrTooManyRequests, [])) ∧
    (cb.counts.Requests < cb.maxRequests →
      cb.beforeRequest now =
        ({ cb with counts := cb.counts.onRequest }, cb.generation, none, [])) := by
  constructor
  · intro h
    simp [CircuitBreaker.beforeRequest, CircuitBreaker.currentState, hs, h]
  · intro h
    simp [CircuitBreaker.beforeRequest, CircuitBreaker.currentState, hs, Nat.not_le.2 h]

/-- Witness for C4: `cbHalfW` (budget 2 exhausted) is rejected with
`ErrTooManyRequests` and unchanged; `cbProbeW` (1 of 2 used) is
admitted. -/
theorem beforeRequest_halfOpen_budget_witness :
    (cbHalfW.beforeRequest 4 = (cbHalfW, cbHalfW.generation, some Err.ErrTooManyRequests, [])) ∧
    (cbProbeW.beforeRequest 4 =
      ({ cbProbeW with counts := cbProbeW.counts.onRequest }, cbProbeW.generation, none, [])) :=
  ⟨(beforeRequest_halfOpen_budget cbHalfW 4 rfl).1 (by decide),
    (beforeRequest_halfOpen_budget cbProbeW 4 rfl).2 (by decide)⟩

/-- Claim C5: a failure outcome applied while the breaker is HalfOpen
(the report passing the generation check) transitions it to Open
immediately, whatever the prior counts of the generation. -/
theorem halfOpen_failure_opens (cb : CircuitBreaker) (now : Nat)
    (hs : cb.state = StateHalfOpen) :
    (cb.afterRequest cb.generation false now).1.state = StateOpen := by
  simp [CircuitBreaker.afterRequest, CircuitBreaker.currentState, hs,
    CircuitBreaker.onFailure, CircuitBreaker.setState, CircuitBreaker.reset]

/-- Witness for C5: a failure reported to the HalfOpen breaker
`cbHalfW`, which already has one success recorded, opens it. -/
theorem halfOpen_failure_opens_witness :
    (cbHalfW.afterRequest cbHalfW.generation false 4).1.state = StateOpen :=
  halfOpen_failure_opens cbHalfW 4 rfl

/-- Claim C6: a success outcome applied while HalfOpen that brings
`ConsecutiveSuccesses` to at least `maxRequests` transitions the breaker
to Closed and resets every count to zero. -/
theorem halfOpen_success_recovery_closes (cb : CircuitBreaker) (now : Nat)
    (hs : cb.state = StateHalfOpen)
    (h : cb.maxRequests ≤ (cb.counts.onSuccess).ConsecutiveSuccesses) :
    (cb.afterRequest cb.generation true now).1.state = StateClosed ∧
    (cb.afterRequest cb.generation true now).1.counts = zeroCounts := by
  simp only [CircuitBreaker.afterRequest, CircuitBreaker.currentState, hs,
    CircuitBreaker.onSuccess, CircuitBreaker.setState, CircuitBreaker.reset,
    Counts.clear, zeroCounts, h]
  constructor <;> simp [h] <;> split <;> rfl

/-- Witness for C6: a success reported to `cbHalfW` (one consecutive
success already, budget 2) reaches the recovery criterion, closing the
breaker and zeroing the counts. -/
theorem halfOpen_success_recovery_closes_witness :
    (cbHalfW.afterRequest cbHalfW.generation true 4).1.state = StateClosed ∧
    (cbHalfW.afterRequest cbHalfW.generation true 4).1.counts = zeroCounts :=
  halfOpen_success_recovery_closes cbHalfW 4 rfl (by decide)

/-- Claim C7: a failure applied in the Closed state for which
`readyToTrip` returns true on the updated counts transitions the breaker
to Open, fires the observer exactly once with `(Closed, Open)`, and any
state read up to the new expiry (`now + timeout`) returns Open. -/
theorem closed_failure_trip_opens (cb : CircuitBreaker) (now now' : Nat)
    (hs : cb.state = StateClosed)
    (ht : cb.readyToTrip (cb.counts.onFailure) = true)
    (hn : now' ≤ now + cb.timeout) :
    (cb.onFailure StateClosed now).1.state = StateOpen ∧
    (cb.onFailure StateClosed now).2 = [(StateClosed, StateOpen)] ∧
    ((cb.onFailure StateClosed now).1.State now').2.1 = StateOpen := by
  simp [CircuitBreaker.onFailure, CircuitBreaker.setState, CircuitBreaker.reset,
    CircuitBreaker.State, CircuitBreaker.currentState, hs, ht, Nat.not_lt.2 hn]

/-- Witness for C7: the sixth consecutive failure on `cbClosedTripW`
satisfies the default trip predicate; the breaker opens, the observer
fires once with `(Closed, Open)`, and the immediate state read (same
instant) returns Open. -/
theorem closed_failure_trip_opens_witness :
    (cbClosedTripW.onFailure StateClosed 4).1.state = StateOpen ∧
    (cbClosedTripW.onFailure StateClosed 4).2 = [(StateClosed, StateOpen)] ∧
    ((cbClosedTripW.onFailure StateClosed 4).1.State 4).2.1 = StateOpen :=
  closed_failure_trip_opens cbClosedTripW 4 4 rfl (by decide) (by decide)

/-- Claim C8: resolving state on a Closed breaker whose window expiry is
set (nonzero) and has passed clears the counts, increments the
generation, keeps the state Closed, and fires no observer event. -/
theorem closed_window_rollover (cb : CircuitBreaker) (now : Nat)
    (hs : cb.state = StateClosed) (h0 : cb.expiry ≠ 0) (h1 : cb.expiry < now) :
    (cb.currentState now).1.state = StateClosed ∧
    (cb.currentState now).1.counts = zeroCounts ∧
    (cb.currentState now).1.generation = (cb.generation + 1) % u64Mod ∧
    (cb.currentState now).2 = [] := by
  refine ⟨?_, ?_, ?_, ?_⟩ <;>
    simp only [CircuitBreaker.currentState, hs, CircuitBreaker.reset, Counts.clear,
      zeroCounts] <;>
    simp [h0, h1] <;> split <;> rfl

/-- Witness for C8: resolving `cbClosedIntW` (expiry 5) at time 6 rolls
the window over: state stays Closed, counts clear, generation 9 → 10,
no observer event. -/
theorem closed_window_rollover_witness :
    (cbClosedIntW.currentState 6).1.state = StateClosed ∧
    (cbClosedIntW.currentState 6).1.counts = zeroCounts ∧
    (cbClosedIntW.currentState 6).1.generation = (cbClosedIntW.generation + 1) % u64Mod ∧
    (cbClosedIntW.currentState 6).2 = [] :=
  closed_window_rollover cbClosedIntW 6 rfl (by decide) (by decide)

/-- Claim C9: starting from any freshly constructed breaker, after any
sequence of public operations the consecutive-success and
consecutive-failure counters are never both nonzero. -/
theorem consecutive_streaks_never_both_nonzero (cfg : Config) (t0 : Nat)
    (ops : List Op) :
    ((NewCircuitBreaker cfg t0).run ops).counts.ConsecutiveSuccesses = 0 ∨
    ((NewCircuitBreaker cfg t0).run ops).counts.ConsecutiveFailures = 0 :=
  streakOk_run ops (streakOk_reset _ t0)

/-- Claim C10: an outcome report (either kind) whose generation check
passes while the resolved state is Open is a complete no-op: the breaker
— state, counts, generation, expiry and all other fields — is returned
unchanged and no observer event fires. -/
theorem open_report_noop (cb : CircuitBreaker) (now : Nat) (b : Bool)
    (hs : cb.state = StateOpen) (hn : now ≤ cb.expiry) :
    cb.afterRequest cb.generation b now = (cb, []) := by
  cases b <;>
    simp [CircuitBreaker.afterRequest, CircuitBreaker.currentState, hs,
      CircuitBreaker.onSuccess, CircuitBreaker.onFailure, Nat.not_lt.2 hn]

/-- Witness for C10: a success reported to the Open breaker `cbOpenW`
at time 3 (before its expiry 10) with a matching generation leaves it
exactly as it was and fires nothing. -/
theorem open_report_noop_witness :
    cbOpenW.afterRequest cbOpenW.generation true 3 = (cbOpenW, []) :=
  open_report_noop cbOpenW 3 true rfl (by decide)

end Gocbr
